import Mathlib

/-!
Verification development for the TomoAI server's retrieval core.

The definitions below are a shallow embedding of the live route handlers in
src/server.js together with the Mongoose schemas in src/models.  Numeric
embedding vectors are modelled as lists of integers: none of the verified
properties depends on floating-point arithmetic, only on which vectors flow
where.  External calls (the OpenAI chat client, the embeddings client and the
in-memory vector store's similarity search) are passed in as oracle functions
returning Except values, and each handler additionally returns the list of
external calls it made, so that call/no-call and no-retry properties can be
stated.
-/

/-- One persisted document of the Embedding collection
(src/models/embedding.js): spaceId, title, a 2-D array of embedding vectors,
an array of content chunks, and a visibility flag whose schema default is
true.  The Mongo-generated object id is modelled as a string field. -/
structure StoredDoc where
  id : String
  spaceId : String
  title : String
  embeddings : List (List Int)
  content : List String
  visibility : Bool
deriving DecidableEq, Repr

/-- The LangChain Document values the chat route constructs
(src/server.js lines 112-117): each carries only a pageContent string and the
spaceId metadata.  No embedding vector is part of this structure. -/
structure LCDocument where
  pageContent : String
  metaSpaceId : String
deriving DecidableEq, Repr

/-- Embedding.find({ spaceId }): all persisted documents of the given space,
in store order (src/server.js line 81, and the listing route at line 884). -/
def embeddingFindBySpace (spaceId : String) (store : List StoredDoc) :
    List StoredDoc :=
  store.filter (fun d => d.spaceId = spaceId)

/-- The flatMap at src/server.js lines 112-117: for each persisted document,
one LangChain Document per entry of its embeddings array, whose pageContent is
the content chunk at the same index (undefined, modelled as "", when the
content array is shorter).  The stored vector itself is dropped. -/
def buildLCDocuments (embeddingsData : List StoredDoc) : List LCDocument :=
  embeddingsData.flatMap (fun d =>
    (List.range d.embeddings.length).map (fun i =>
      { pageContent := d.content.getD i "", metaSpaceId := d.spaceId }))

/-- The page contents of the documents handed to the in-memory vector store. -/
def buildDocumentTexts (embeddingsData : List StoredDoc) : List String :=
  (buildLCDocuments embeddingsData).map (fun d => d.pageContent)

/-- JavaScript String.prototype.split("\n") over the character list: the
list of newline-separated segments, with empty segments kept. -/
def splitLinesAux : List Char → List Char → List String
  | [], acc => [String.mk acc.reverse]
  | c :: cs, acc =>
    if c = '\n' then String.mk acc.reverse :: splitLinesAux cs []
    else splitLinesAux cs (c :: acc)

/-- s.split("\n") of the JavaScript source. -/
def jsSplitLines (s : String) : List String := splitLinesAux s.toList []

/-- JavaScript String.prototype.trim(): drop leading and trailing
whitespace. -/
def jsTrim (s : String) : String :=
  String.mk
    (((s.toList.dropWhile Char.isWhitespace).reverse.dropWhile
        Char.isWhitespace).reverse)

/-- Context assembly at src/server.js line 134:
results.map(r => "Content: " + r.pageContent).join("\n\n"). -/
def assembleContext (results : List String) : String :=
  String.intercalate "\n\n" (results.map (fun r => "Content: " ++ r))

/-- The user message of the grounded-answer model call
(src/server.js line 139): the bare prompt when the context string is empty
(falsy), otherwise the Context/Question template. -/
def groundedUserMessage (context prompt : String) : String :=
  if context = "" then prompt
  else "Context:\n" ++ context ++ "\n\nQuestion: " ++ prompt

/-- Post-processing of the model's answer at src/server.js line 143: split on
newlines, trim each line, drop blank lines, rejoin; the "No response from AI"
fallback when the result is the empty (falsy) string. -/
def cleanAiResponse (s : String) : String :=
  let t := String.intercalate "\n"
    (((jsSplitLines s).map jsTrim).filter (fun l => l ≠ ""))
  if t = "" then "No response from AI" else t

/-- The regex replace at src/server.js line 101:
question.replace(/^\d+\.\s*/, "").  It strips one leading run of digits only
when followed by a literal dot, together with the whitespace after the dot;
any other line, including "2) ..." forms, is returned unchanged. -/
def stripLeadingEnum (s : String) : String :=
  let cs := s.toList
  let ds := cs.takeWhile Char.isDigit
  if ds.length > 0 then
    match cs.drop ds.length with
    | '.' :: rest => String.mk (rest.dropWhile Char.isWhitespace)
    | _ => s
  else s

/-- Sample-question parsing at src/server.js lines 99-103: split the model
output on newlines, strip the leading "N." enumeration and trim each line,
keep non-empty lines, take at most 3. -/
def parseSampleQuestions (txt : String) : List String :=
  (((jsSplitLines txt).map (fun q => jsTrim (stripLeadingEnum q))).filter
    (fun l => l.length > 0)).take 3

/-- The sample-question instruction template at src/server.js line 95. -/
def sampleQuestionsInstruction (corpus : String) : String :=
  "Generate 3 unique, concise questions with less than 12 words based on the following content without numbering each question:\n" ++ corpus

/-- The corpus string at src/server.js line 91:
embeddingsData.map(d => d.content).join(" ").  Joining an array of arrays in
JavaScript stringifies each element, which comma-joins each content array. -/
def sampleQuestionsCorpus (embeddingsData : List StoredDoc) : String :=
  String.intercalate " "
    (embeddingsData.map (fun d => String.intercalate "," d.content))

/-- One external call made by the chat handler: embedding the added documents
(inside vectorStore.addDocuments), the similarity search (which embeds the
query), or a chat-completion call with its messages as (role, content) pairs. -/
inductive ExtCall where
  | embedDocs (texts : List String)
  | search (query : String) (k : Nat)
  | chat (msgs : List (String × String))
deriving DecidableEq, Repr

/-- The possible HTTP outcomes of POST /api/chat. -/
inductive ChatResult where
  | badRequest (error : String)
  | notFound (error : String)
  | serverError (error details : String)
  | sampleQuestions (qs : List String)
  | answered (contextSummary response : String)
deriving DecidableEq, Repr

/-- The system instruction of the grounded-answer call
(src/server.js line 138). -/
def groundedSystemMessage : String :=
  "You are a helpful assistant that answers clearly."

/-- The POST /api/chat handler (src/server.js lines 72-155), with the three
external effects passed in as oracles: chatO is openai.chat.completions.create
(returning the first choice's message content), addDocsO is
vectorStore.addDocuments (whose embedDocuments call can fail), and searchO is
vectorStore.similaritySearch.  A failing oracle models the awaited promise
rejecting; the search failure is caught by the inner try of lines 125-131, the
others by the outer catch of lines 151-154.  The handler returns the HTTP
outcome together with the list of external calls it performed, in order. -/
def chatHandler (store : List StoredDoc) (prompt spaceId : String)
    (chatO : List (String × String) → Except String String)
    (addDocsO : List String → Except String Unit)
    (searchO : String → Nat → Except String (List String)) :
    ChatResult × List ExtCall :=
  if spaceId = "" then (.badRequest "spaceId is required", [])
  else
    let embeddingsData := embeddingFindBySpace spaceId store
    if embeddingsData.isEmpty then
      (.notFound "No embeddings found for the specified space", [])
    else if prompt = "" then
      let msgs := [("user",
        sampleQuestionsInstruction (sampleQuestionsCorpus embeddingsData))]
      match chatO msgs with
      | .error e => (.serverError "Internal server error" e, [.chat msgs])
      | .ok txt => (.sampleQuestions (parseSampleQuestions txt), [.chat msgs])
    else
      let texts := buildDocumentTexts embeddingsData
      match addDocsO texts with
      | .error e => (.serverError "Internal server error" e, [.embedDocs texts])
      | .ok _ =>
        match searchO prompt 3 with
        | .error e =>
          (.serverError "Error during similarity search" e,
           [.embedDocs texts, .search prompt 3])
        | .ok results =>
          let context := assembleContext results
          let msgs := [("system", groundedSystemMessage),
                       ("user", groundedUserMessage context prompt)]
          match chatO msgs with
          | .error e =>
            (.serverError "Internal server error" e,
             [.embedDocs texts, .search prompt 3, .chat msgs])
          | .ok content =>
            (.answered
               (if context = "" then "No relevant context found." else context)
               (cleanAiResponse content),
             [.embedDocs texts, .search prompt 3, .chat msgs])

/-- Saving a new Embedding document (newEmbedding.save() against the schema
of src/models/embedding.js).  Mongoose rejects a missing or empty required
string (spaceId, title); the required flag on the two array fields is
satisfied by any array, empty included, and the schema carries no validator
comparing the two arrays' lengths.  On success the document is appended to
the store. -/
def saveEmbedding (d : StoredDoc) (store : List StoredDoc) :
    Option (List StoredDoc) :=
  if d.spaceId = "" ∨ d.title = "" then none
  else some (store ++ [d])

/-- The POST /api/embeddings handler body (src/server.js lines 848-873),
after the embedding provider returned the vector for the input text (the
route reads response.data.data[0].embedding).  Rejects a missing field with
400 (modelled as none).  The document is then constructed as
new Embedding({ spaceId, title, embeddings }): the content field is never
set, so it takes the schema's empty-array default, and the single returned
vector is cast to the 2-D [[Number]] schema type by wrapping each number.
newId stands for the Mongo-generated object id. -/
def rawTextIngest (newId spaceId title text : String)
    (embedText : String → List Int) : Option StoredDoc :=
  if spaceId = "" ∨ title = "" ∨ text = "" then none
  else some
    { id := newId, spaceId := spaceId, title := title,
      embeddings := (embedText text).map (fun x => [x]),
      content := [], visibility := true }

/-- The POST /api/upload-pdf handler body (src/server.js lines 910-973),
with PDF loading and splitting abstracted into the chunks argument (the page
contents produced by the splitter) and the embeddings client passed as
embedDoc.  Missing spaceId or title is a 400; chunks whose content trims to
empty are filtered out; an empty remainder is a 400; otherwise the loop of
lines 945-949 builds the two arrays in lockstep and the document is saved
with no visibility value, taking the schema default true. -/
def pdfIngest (newId spaceId title : String) (chunks : List String)
    (embedDoc : String → List Int) : Option StoredDoc :=
  if spaceId = "" ∨ title = "" then none
  else
    let validChunks := chunks.filter (fun c => jsTrim c ≠ "")
    if validChunks.isEmpty then none
    else some
      { id := newId, spaceId := spaceId, title := title,
        embeddings := validChunks.map embedDoc,
        content := validChunks, visibility := true }

/-- The PUT /api/documents/:id/visibility handler
(src/server.js lines 976-996): Embedding.findByIdAndUpdate(id, { visibility })
sets exactly the visibility field of the document whose unique id matches,
leaving every other field and every other document untouched. -/
def setVisibility (id : String) (flag : Bool) (store : List StoredDoc) :
    List StoredDoc :=
  store.map (fun d => if d.id = id then { d with visibility := flag } else d)

/-- A chat document (src/models/chat.js), restricted to the fields the space
deletion route reads: the owning space and the unique chat id. -/
structure ChatDoc where
  spaceId : String
  chatId : String
deriving DecidableEq, Repr

/-- A ChatPlus document, restricted to the fields the space deletion route
reads. -/
structure ChatPlusDoc where
  spaceId : String
  chatPlusId : String
deriving DecidableEq, Repr

/-- A space document (the Space schema), restricted to its unique spaceId and
name. -/
structure SpaceDoc where
  spaceId : String
  spaceName : String
deriving DecidableEq, Repr

/-- The persisted collections the space deletion route touches or could
touch: spaces, chats, chatPlus entries and the Embedding documents. -/
structure AppState where
  spaces : List SpaceDoc
  chats : List ChatDoc
  chatPluses : List ChatPlusDoc
  embeddings : List StoredDoc
deriving DecidableEq, Repr

/-- The DELETE /api/spaces/:spaceId handler (src/server.js lines 713-731):
Chat.deleteMany({ spaceId }), then ChatPlus.deleteMany({ spaceId }), then
Space.findOneAndDelete({ spaceId }) — a 404 when no space matched (the chat
deletions having already run), 200 otherwise.  No operation on the Embedding
collection appears in the route.  The Bool is true exactly on the 200
outcome. -/
def deleteSpaceRoute (spaceId : String) (st : AppState) : Bool × AppState :=
  let st1 : AppState :=
    { st with
      chats := st.chats.filter (fun c => ¬ c.spaceId = spaceId),
      chatPluses := st.chatPluses.filter (fun c => ¬ c.spaceId = spaceId) }
  if st1.spaces.any (fun s => s.spaceId = spaceId) then
    (true, { st1 with spaces := st1.spaces.eraseP (fun s => s.spaceId = spaceId) })
  else (false, st1)

/-! ## Theorems -/

/-- A non-empty list has isEmpty false. -/
theorem isEmpty_false_of_ne_nil {α : Type} {l : List α} (h : l ≠ []) :
    l.isEmpty = false := by
  simp [List.isEmpty_iff]
  exact h

/-- C3: for every prompt (empty or not), querying a space id that has zero
ingested documents fails with the 404 NotFound response, and the handler
makes no external call at all — neither the embedder nor the language
model is reached. -/
theorem c3_empty_corpus_not_found (store : List StoredDoc)
    (prompt spaceId : String)
    (chatO : List (String × String) → Except String String)
    (addDocsO : List String → Except String Unit)
    (searchO : String → Nat → Except String (List String))
    (hs : spaceId ≠ "")
    (hempty : embeddingFindBySpace spaceId store = []) :
    chatHandler store prompt spaceId chatO addDocsO searchO =
      (.notFound "No embeddings found for the specified space", []) := by
  simp [chatHandler, hs, hempty]

/-- Witness for C3 at a concrete empty store. -/
theorem c3_empty_corpus_not_found_witness :
    chatHandler [] "anything" "space1" (fun _ => .ok "x") (fun _ => .ok ())
        (fun _ _ => .ok []) =
      (.notFound "No embeddings found for the specified space", []) :=
  c3_empty_corpus_not_found [] "anything" "space1" _ _ _ (by decide) rfl

/-- C2: for a non-empty prompt on a space with at least one ingested
document, the grounded path asks the similarity search for the top 3 chunks,
assembles the context by joining the retrieved texts in ranked order, each
prefixed "Content: " and separated by a blank line, and the user message of
the model call is the Context/Question template when the context is
non-empty and the bare prompt otherwise; an empty retrieval result yields
the empty context string, not an error. -/
theorem c2_grounded_context_and_message (store : List StoredDoc)
    (prompt spaceId : String)
    (chatO : List (String × String) → Except String String)
    (addDocsO : List String → Except String Unit)
    (searchO : String → Nat → Except String (List String))
    (results : List String) (txt : String)
    (hs : spaceId ≠ "")
    (hne : embeddingFindBySpace spaceId store ≠ [])
    (hp : prompt ≠ "")
    (ha : addDocsO (buildDocumentTexts (embeddingFindBySpace spaceId store)) =
      .ok ())
    (hsr : searchO prompt 3 = .ok results)
    (hc : chatO [("system", groundedSystemMessage),
      ("user", groundedUserMessage (assembleContext results) prompt)] =
      .ok txt) :
    chatHandler store prompt spaceId chatO addDocsO searchO =
      (.answered
         (if assembleContext results = "" then "No relevant context found."
          else assembleContext results)
         (cleanAiResponse txt),
       [.embedDocs (buildDocumentTexts (embeddingFindBySpace spaceId store)),
        .search prompt 3,
        .chat [("system", groundedSystemMessage),
               ("user", groundedUserMessage (assembleContext results) prompt)]]) := by
  simp [chatHandler, hs, hp, isEmpty_false_of_ne_nil hne, ha, hsr, hc]

/-- Witness for C2 at a one-document store and a one-chunk retrieval
result. -/
theorem c2_grounded_context_and_message_witness :
    chatHandler
        [{ id := "d1", spaceId := "s", title := "notes",
           embeddings := [[1, 0]],
           content := ["Paris is the capital of France."],
           visibility := true }]
        "What is the capital of France?" "s"
        (fun _ => .ok "Paris.") (fun _ => .ok ())
        (fun _ _ => .ok ["Paris is the capital of France."]) =
      (.answered "Content: Paris is the capital of France." "Paris.",
       [.embedDocs ["Paris is the capital of France."],
        .search "What is the capital of France?" 3,
        .chat [("system", groundedSystemMessage),
               ("user",
                "Context:\nContent: Paris is the capital of France.\n\nQuestion: What is the capital of France?")]]) := by
  have h := c2_grounded_context_and_message
    [{ id := "d1", spaceId := "s", title := "notes",
       embeddings := [[1, 0]],
       content := ["Paris is the capital of France."],
       visibility := true }]
    "What is the capital of France?" "s"
    (fun _ => .ok "Paris.") (fun _ => .ok ())
    (fun _ _ => .ok ["Paris is the capital of France."])
    ["Paris is the capital of France."] "Paris."
    (by decide) (by decide) (by decide) rfl rfl rfl
  exact h

/-- Whether an external call is a chat-completion call. -/
def isChatCall : ExtCall → Bool
  | .chat _ => true
  | _ => false

/-- Whether an external call is a similarity search. -/
def isSearchCall : ExtCall → Bool
  | .search _ _ => true
  | _ => false

/-- Whether an external call is a document-embedding call. -/
def isEmbedCall : ExtCall → Bool
  | .embedDocs _ => true
  | _ => false

/-- On every path through the chat handler, each kind of external call is
made at most once: there is no retry loop in the route. -/
theorem chatHandler_calls_le_one (store : List StoredDoc)
    (prompt spaceId : String)
    (chatO : List (String × String) → Except String String)
    (addDocsO : List String → Except String Unit)
    (searchO : String → Nat → Except String (List String)) :
    ((chatHandler store prompt spaceId chatO addDocsO searchO).2.countP
        isChatCall ≤ 1) ∧
    ((chatHandler store prompt spaceId chatO addDocsO searchO).2.countP
        isSearchCall ≤ 1) ∧
    ((chatHandler store prompt spaceId chatO addDocsO searchO).2.countP
        isEmbedCall ≤ 1) := by
  unfold chatHandler
  dsimp only
  repeat' split
  all_goals simp [List.countP_cons, isChatCall, isSearchCall, isEmbedCall]

/-- C7: whenever one of the external provider calls fails — the document
embedding inside addDocuments, the similarity search (which embeds the
query), or either chat-completion call — the handler returns a 500
server-error response carrying the provider's error message unchanged in its
details, and no fabricated answer; and no kind of external call is ever made
more than once, so nothing is retried inside the route. -/
theorem c7_provider_errors_surfaced (store : List StoredDoc)
    (prompt spaceId : String)
    (chatO : List (String × String) → Except String String)
    (addDocsO : List String → Except String Unit)
    (searchO : String → Nat → Except String (List String))
    (hs : spaceId ≠ "")
    (hne : embeddingFindBySpace spaceId store ≠ []) :
    (∀ e, prompt = "" →
      chatO [("user", sampleQuestionsInstruction
          (sampleQuestionsCorpus (embeddingFindBySpace spaceId store)))] =
        .error e →
      (chatHandler store prompt spaceId chatO addDocsO searchO).1 =
        .serverError "Internal server error" e) ∧
    (∀ e, prompt ≠ "" →
      addDocsO (buildDocumentTexts (embeddingFindBySpace spaceId store)) =
        .error e →
      (chatHandler store prompt spaceId chatO addDocsO searchO).1 =
        .serverError "Internal server error" e) ∧
    (∀ e, prompt ≠ "" →
      addDocsO (buildDocumentTexts (embeddingFindBySpace spaceId store)) =
        .ok () →
      searchO prompt 3 = .error e →
      (chatHandler store prompt spaceId chatO addDocsO searchO).1 =
        .serverError "Error during similarity search" e) ∧
    (∀ e results, prompt ≠ "" →
      addDocsO (buildDocumentTexts (embeddingFindBySpace spaceId store)) =
        .ok () →
      searchO prompt 3 = .ok results →
      chatO [("system", groundedSystemMessage),
        ("user", groundedUserMessage (assembleContext results) prompt)] =
        .error e →
      (chatHandler store prompt spaceId chatO addDocsO searchO).1 =
        .serverError "Internal server error" e) ∧
    ((chatHandler store prompt spaceId chatO addDocsO searchO).2.countP
        isChatCall ≤ 1 ∧
     (chatHandler store prompt spaceId chatO addDocsO searchO).2.countP
        isSearchCall ≤ 1 ∧
     (chatHandler store prompt spaceId chatO addDocsO searchO).2.countP
        isEmbedCall ≤ 1) := by
  refine ⟨?_, ?_, ?_, ?_,
    chatHandler_calls_le_one store prompt spaceId chatO addDocsO searchO⟩
  · intro e hp hc
    simp [chatHandler, hs, hp, isEmpty_false_of_ne_nil hne, hc]
  · intro e hp ha
    simp [chatHandler, hs, hp, isEmpty_false_of_ne_nil hne, ha]
  · intro e hp ha hsr
    simp [chatHandler, hs, hp, isEmpty_false_of_ne_nil hne, ha, hsr]
  · intro e results hp ha hsr hc
    simp [chatHandler, hs, hp, isEmpty_false_of_ne_nil hne, ha, hsr, hc]

/-- Witness for C7: a concrete failing similarity search is surfaced with its
message unchanged. -/
theorem c7_provider_errors_surfaced_witness :
    (chatHandler
        [{ id := "d1", spaceId := "s", title := "notes",
           embeddings := [[1]], content := ["hello"], visibility := true }]
        "question" "s" (fun _ => .ok "answer") (fun _ => .ok ())
        (fun _ _ => .error "quota exceeded")).1 =
      .serverError "Error during similarity search" "quota exceeded" :=
  (c7_provider_errors_surfaced
      [{ id := "d1", spaceId := "s", title := "notes",
         embeddings := [[1]], content := ["hello"], visibility := true }]
      "question" "s" (fun _ => .ok "answer") (fun _ => .ok ())
      (fun _ _ => .error "quota exceeded")
      (by decide) (by decide)).2.2.1 "quota exceeded" (by decide) rfl rfl

/-- A store whose single document has stored vector [1, 0]. -/
def c1StoreA : List StoredDoc :=
  [{ id := "d1", spaceId := "s", title := "notes",
     embeddings := [[1, 0]],
     content := ["Paris is the capital of France."], visibility := true }]

/-- The same store except the persisted vector is [0, 1]. -/
def c1StoreB : List StoredDoc :=
  [{ id := "d1", spaceId := "s", title := "notes",
     embeddings := [[0, 1]],
     content := ["Paris is the capital of France."], visibility := true }]

/-- C1 counterexample: the LangChain Document values the chat route hands to
the vector store carry no stored vector, so two stores whose persisted
embedding vectors differ produce the identical index input.  Everything
downstream (addDocuments, similaritySearch) is a function of that input and
the prompt alone, so the persisted vectors cannot be the vectors compared
against the query vector — refuting the claim at this concrete pair of
stores. -/
theorem c1_stored_vectors_not_searched :
    buildLCDocuments c1StoreA = buildLCDocuments c1StoreB ∧
    c1StoreA.flatMap (fun d => d.embeddings) ≠
      c1StoreB.flatMap (fun d => d.embeddings) := by
  constructor
  · rfl
  · decide

/-- buildLCDocuments is a function of each document's spaceId, content and
embedding count only. -/
theorem buildLCDocuments_key (S : List StoredDoc) :
    buildLCDocuments S =
      (S.map (fun d => (d.spaceId, d.content, d.embeddings.length))).flatMap
        (fun x => (List.range x.2.2).map (fun i =>
          { pageContent := x.2.1.getD i "", metaSpaceId := x.1 })) := by
  induction S with
  | nil => rfl
  | cons d S ih =>
    simp only [buildLCDocuments, List.map_cons, List.flatMap_cons] at ih ⊢
    rw [ih]

/-- The index input has exactly one entry per stored embedding entry. -/
theorem buildLCDocuments_length (S : List StoredDoc) :
    (buildLCDocuments S).length =
      (S.map (fun d => d.embeddings.length)).sum := by
  induction S with
  | nil => rfl
  | cons d S ih =>
    simp only [buildLCDocuments, List.flatMap_cons, List.length_append,
      List.length_map, List.length_range, List.map_cons, List.sum_cons]
      at ih ⊢
    rw [ih]

/-- C1 amended: the Similarity Index input is rebuilt per query from the
collection's persisted chunks — one entry per stored embedding entry, whose
text is the content chunk at the same index — but it depends only on the
persisted texts, space ids and vector counts; the stored vector values
themselves are discarded, and the vectors actually compared are recomputed
from the chunk texts by the embeddings client. -/
theorem c1_index_rebuilt_from_persisted_texts (S T : List StoredDoc)
    (h : S.map (fun d => (d.spaceId, d.content, d.embeddings.length)) =
         T.map (fun d => (d.spaceId, d.content, d.embeddings.length))) :
    buildLCDocuments S = buildLCDocuments T ∧
    (buildLCDocuments S).length =
      (S.map (fun d => d.embeddings.length)).sum := by
  constructor
  · rw [buildLCDocuments_key S, buildLCDocuments_key T, h]
  · exact buildLCDocuments_length S

/-- Witness for C1's amended statement at the concrete store pair. -/
theorem c1_index_rebuilt_from_persisted_texts_witness :
    buildLCDocuments c1StoreA = buildLCDocuments c1StoreB ∧
    (buildLCDocuments c1StoreA).length =
      (c1StoreA.map (fun d => d.embeddings.length)).sum :=
  c1_index_rebuilt_from_persisted_texts c1StoreA c1StoreB rfl

/-- A one-document store used for empty-prompt scenarios. -/
def c4Store : List StoredDoc :=
  [{ id := "d1", spaceId := "s", title := "notes",
     embeddings := [[1]],
     content := ["Paris is the capital of France."], visibility := true }]

/-- C4 counterexample: with an empty prompt on a space with one ingested
document, a model output enumerated as "1) ..." / "2) ..." is returned with
the parenthesis enumeration intact — the replace regex only strips "N."
forms — so the first returned question begins with a digit followed by
")". -/
theorem c4_paren_enumeration_kept :
    (chatHandler c4Store "" "s"
        (fun _ => .ok "1) First question\n2) Second question")
        (fun _ => .ok ()) (fun _ _ => .ok [])).1 =
      .sampleQuestions ["1) First question", "2) Second question"] ∧
    ("1) First question").toList.take 2 = ['1', ')'] := by
  constructor
  · rfl
  · decide

/-- C4 amended: on an empty prompt with at least one ingested document, the
result is the sampleQuestions array obtained by splitting the model output on
newlines, stripping a leading "digits." enumeration (with its trailing
whitespace) from each line, trimming, discarding blank lines and keeping at
most 3 strings; fewer than 3 usable lines yield fewer questions, never
padding or an error.  Lines enumerated "N)" are kept verbatim, so a returned
question may still begin with a digit followed by ")" (or even "."). -/
theorem c4_sample_questions_parsed (store : List StoredDoc)
    (spaceId : String)
    (chatO : List (String × String) → Except String String)
    (addDocsO : List String → Except String Unit)
    (searchO : String → Nat → Except String (List String))
    (txt : String)
    (hs : spaceId ≠ "")
    (hne : embeddingFindBySpace spaceId store ≠ [])
    (hc : chatO [("user", sampleQuestionsInstruction
        (sampleQuestionsCorpus (embeddingFindBySpace spaceId store)))] =
      .ok txt) :
    (chatHandler store "" spaceId chatO addDocsO searchO).1 =
      .sampleQuestions (parseSampleQuestions txt) ∧
    (parseSampleQuestions txt).length ≤ 3 ∧
    ∀ q ∈ parseSampleQuestions txt, q ≠ "" := by
  refine ⟨?_, ?_, ?_⟩
  · simp [chatHandler, hs, isEmpty_false_of_ne_nil hne, hc]
  · simp [parseSampleQuestions, List.length_take]
  · intro q hq
    have hq2 := List.take_subset 3 _ hq
    have hlen : q.length > 0 := of_decide_eq_true (List.mem_filter.mp hq2).2
    intro hq3
    rw [hq3] at hlen
    exact Nat.lt_irrefl 0 hlen

/-- Witness for C4's amended statement: two usable lines yield two
questions, with no padding. -/
theorem c4_sample_questions_parsed_witness :
    (chatHandler c4Store "" "s"
        (fun _ => .ok "What is Paris?\nWhere is France?")
        (fun _ => .ok ()) (fun _ _ => .ok [])).1 =
      .sampleQuestions
        (parseSampleQuestions "What is Paris?\nWhere is France?") ∧
    (parseSampleQuestions "What is Paris?\nWhere is France?").length ≤ 3 ∧
    ∀ q ∈ parseSampleQuestions "What is Paris?\nWhere is France?",
      q ≠ "" :=
  c4_sample_questions_parsed c4Store "s"
    (fun _ => .ok "What is Paris?\nWhere is France?")
    (fun _ => .ok ()) (fun _ _ => .ok [])
    "What is Paris?\nWhere is France?" (by decide) (by decide) rfl

/-- C5: code bug — the raw-text ingest of POST /api/embeddings constructs
new Embedding({ spaceId, title, embeddings }) without ever setting the
content field, so the saved document has an empty chunk-text sequence while
its embeddings field is non-empty: the chunk-text and chunk-embedding
sequences are neither equal-length nor index-aligned, and the route does not
produce one (text, vector) pair.  Evaluated at the failing input
spaceId = "s", title = "t", text = "hello". -/
theorem c5_raw_ingest_misaligned :
    ∃ d, rawTextIngest "id1" "s" "t" "hello" (fun _ => [1, 2]) = some d ∧
      d.content = [] ∧ d.embeddings ≠ [] ∧
      d.content.length ≠ d.embeddings.length :=
  ⟨{ id := "id1", spaceId := "s", title := "t",
     embeddings := [[1], [2]], content := [], visibility := true },
   by decide, rfl, by decide, by decide⟩

/-- A document with three chunk texts but only two vectors. -/
def c6Mismatched : StoredDoc :=
  { id := "m1", spaceId := "s", title := "t",
    embeddings := [[1], [2]], content := ["a", "b", "c"],
    visibility := true }

/-- C6 counterexample: an append whose chunk-text array has 3 entries but
whose chunk-vector array has 2 entries is accepted by the store boundary —
the schema has no validator comparing the arrays — and the mismatched
document is fully observable afterwards through the per-space fetch, instead
of being rejected with an InputError. -/
theorem c6_mismatched_append_accepted :
    c6Mismatched.content.length = 3 ∧ c6Mismatched.embeddings.length = 2 ∧
    saveEmbedding c6Mismatched [] = some [c6Mismatched] ∧
    embeddingFindBySpace "s" [c6Mismatched] = [c6Mismatched] := by
  refine ⟨rfl, rfl, by decide, by decide⟩

/-- C6 amended: the store boundary itself never rejects mismatched or empty
arrays; the alignment comes from the PDF ingest path, which always writes
equal-length, non-empty chunk-text and chunk-vector arrays (it rejects an
empty chunk set with a client error before any write). -/
theorem c6_pdf_append_aligned (newId spaceId title : String)
    (chunks : List String) (embedDoc : String → List Int) (d : StoredDoc)
    (h : pdfIngest newId spaceId title chunks embedDoc = some d) :
    d.content.length = d.embeddings.length ∧ d.content ≠ [] := by
  simp only [pdfIngest] at h
  split at h
  · simp at h
  · split at h
    · simp at h
    · rename_i hne
      injection h with h
      subst h
      refine ⟨by simp, ?_⟩
      intro hc
      dsimp only at hc
      exact hne (by rw [hc]; rfl)

/-- Witness for C6's amended statement: a one-chunk PDF ingest writes one
text and one vector. -/
theorem c6_pdf_append_aligned_witness :
    ({ id := "p1", spaceId := "s", title := "t",
       embeddings := [[7]], content := ["hello world"],
       visibility := true } : StoredDoc).content.length =
      ({ id := "p1", spaceId := "s", title := "t",
         embeddings := [[7]], content := ["hello world"],
         visibility := true } : StoredDoc).embeddings.length ∧
    ({ id := "p1", spaceId := "s", title := "t",
       embeddings := [[7]], content := ["hello world"],
       visibility := true } : StoredDoc).content ≠ [] :=
  c6_pdf_append_aligned "p1" "s" "t" ["hello world"] (fun _ => [7]) _
    (by decide)

/-- A state with one space, one chat in it and one ingested document. -/
def c8State : AppState :=
  { spaces := [{ spaceId := "s", spaceName := "CS101" }],
    chats := [{ spaceId := "s", chatId := "c1" }],
    chatPluses := [{ spaceId := "s", chatPlusId := "cp1" }],
    embeddings := [{ id := "d1", spaceId := "s", title := "notes",
                     embeddings := [[1]], content := ["hello"],
                     visibility := true }] }

/-- C8 counterexample: deleting space "s" succeeds (200), yet the space's
ingested document is untouched and still retrievable through the per-space
fetch afterwards — the route never touches the Embedding collection, so the
cascade does not cover the collection's Documents. -/
theorem c8_documents_survive_space_delete :
    (deleteSpaceRoute "s" c8State).1 = true ∧
    (deleteSpaceRoute "s" c8State).2.embeddings = c8State.embeddings ∧
    embeddingFindBySpace "s" (deleteSpaceRoute "s" c8State).2.embeddings ≠
      [] := by
  refine ⟨by decide, by decide, by decide⟩

/-- C8 amended: deleting a space removes every Chat and every ChatPlus entry
of that space (and the space itself when present), but leaves the Embedding
collection — the space's ingested Documents — entirely unchanged, so those
documents remain retrievable. -/
theorem c8_cascade_covers_chats_not_documents (spaceId : String)
    (st : AppState) :
    ((deleteSpaceRoute spaceId st).2.chats.all
        (fun c => ¬ c.spaceId = spaceId)) ∧
    ((deleteSpaceRoute spaceId st).2.chatPluses.all
        (fun c => ¬ c.spaceId = spaceId)) ∧
    (deleteSpaceRoute spaceId st).2.embeddings = st.embeddings := by
  unfold deleteSpaceRoute
  dsimp only
  split <;>
    refine ⟨?_, ?_, rfl⟩ <;>
    · simp only [List.all_eq_true]
      intro c hc
      exact (List.mem_filter.mp hc).2

/-- All fields of a stored document except its visibility flag. -/
def stripVisibility (d : StoredDoc) :
    String × String × String × List (List Int) × List String :=
  (d.id, d.spaceId, d.title, d.embeddings, d.content)

/-- The per-space filter commutes with mapping a spaceId-preserving
function over the store. -/
theorem filter_space_map (g : StoredDoc → StoredDoc)
    (hg1 : ∀ d, (g d).spaceId = d.spaceId) (spaceId : String)
    (store : List StoredDoc) :
    (store.map g).filter (fun d => d.spaceId = spaceId) =
      (store.filter (fun d => d.spaceId = spaceId)).map g := by
  induction store with
  | nil => rfl
  | cons d t ih =>
    simp only [List.map_cons, List.filter_cons, hg1 d]
    by_cases hsp : d.spaceId = spaceId
    · simp [hsp, ih]
    · simp [hsp, ih]

/-- Mapping a function that preserves content and embedding count over a
document list leaves the vector-store input texts unchanged. -/
theorem buildTexts_map_invariant (g : StoredDoc → StoredDoc)
    (hg : ∀ d, (g d).content = d.content ∧
      (g d).embeddings.length = d.embeddings.length)
    (l : List StoredDoc) :
    buildDocumentTexts (l.map g) = buildDocumentTexts l := by
  induction l with
  | nil => rfl
  | cons d t ih =>
    obtain ⟨h2, h3⟩ := hg d
    simp only [buildDocumentTexts, buildLCDocuments, List.map_cons,
      List.flatMap_cons, List.map_append] at ih ⊢
    rw [h2, h3, ih]
    simp only [List.map_map]
    rfl

/-- C9: setVisibility is a pure metadata flip — after it, the store's
documents are unchanged in every field except possibly the visibility flag
of the targeted id, any document with a different id is untouched entirely,
and for every space the chunk texts participating in grounded-answer
retrieval are identical to before (the chat route's fetch does not filter on
visibility). -/
theorem c9_set_visibility_frame (id : String) (flag : Bool)
    (store : List StoredDoc) :
    (setVisibility id flag store).map stripVisibility =
      store.map stripVisibility ∧
    (∀ d ∈ store, ¬ d.id = id → d ∈ setVisibility id flag store) ∧
    ∀ spaceId,
      buildDocumentTexts
        (embeddingFindBySpace spaceId (setVisibility id flag store)) =
      buildDocumentTexts (embeddingFindBySpace spaceId store) := by
  refine ⟨?_, ?_, ?_⟩
  · rw [setVisibility, List.map_map]
    refine List.map_congr_left ?_
    intro d _
    by_cases h : d.id = id <;> simp [Function.comp, stripVisibility, h]
  · intro d hd hne
    rw [setVisibility]
    refine List.mem_map.mpr ⟨d, hd, ?_⟩
    simp [hne]
  · intro spaceId
    rw [setVisibility, embeddingFindBySpace, embeddingFindBySpace,
      filter_space_map _ (fun d => by by_cases h : d.id = id <;> simp [h]),
      buildTexts_map_invariant _
        (fun d => by by_cases h : d.id = id <;> simp [h])]

/-- Witness for C9: a non-targeted document is literally unchanged in the
store after the flip. -/
theorem c9_set_visibility_frame_witness :
    ({ id := "d2", spaceId := "s", title := "other",
       embeddings := [[2]], content := ["world"],
       visibility := true } : StoredDoc) ∈
      setVisibility "d1" false
        [{ id := "d1", spaceId := "s", title := "notes",
           embeddings := [[1]], content := ["hello"], visibility := true },
         { id := "d2", spaceId := "s", title := "other",
           embeddings := [[2]], content := ["world"],
           visibility := true }] :=
  (c9_set_visibility_frame "d1" false
      [{ id := "d1", spaceId := "s", title := "notes",
         embeddings := [[1]], content := ["hello"], visibility := true },
       { id := "d2", spaceId := "s", title := "other",
         embeddings := [[2]], content := ["world"],
         visibility := true }]).2.1
    { id := "d2", spaceId := "s", title := "other",
      embeddings := [[2]], content := ["world"], visibility := true }
    (by decide) (by decide)

/-- C10: neither ingestion path supplies a visibility value, so every
ingested document takes the schema default true, and once saved the
document is part of the per-space fetch that serves both the document
listing and the grounded-answer retrieval. -/
theorem c10_ingested_documents_visible (newId spaceId title : String)
    (chunks : List String) (embedDoc : String → List Int)
    (rawId rawSpace rawTitle text : String) (embedText : String → List Int)
    (d e : StoredDoc)
    (hp : pdfIngest newId spaceId title chunks embedDoc = some d)
    (hr : rawTextIngest rawId rawSpace rawTitle text embedText = some e) :
    d.visibility = true ∧ e.visibility = true ∧
    ∀ store store', saveEmbedding d store = some store' →
      d ∈ embeddingFindBySpace d.spaceId store' := by
  refine ⟨?_, ?_, ?_⟩
  · simp only [pdfIngest] at hp
    split at hp
    · simp at hp
    · split at hp
      · simp at hp
      · injection hp with hp
        subst hp
        rfl
  · simp only [rawTextIngest] at hr
    split at hr
    · simp at hr
    · injection hr with hr
      subst hr
      rfl
  · intro store store' hsave
    simp only [saveEmbedding] at hsave
    split at hsave
    · simp at hsave
    · injection hsave with hsave
      subst hsave
      simp only [embeddingFindBySpace]
      refine List.mem_filter.mpr ⟨?_, by simp⟩
      exact List.mem_append_right store (List.mem_singleton.mpr rfl)

/-- The document a one-chunk PDF ingest produces. -/
def c10PdfDoc : StoredDoc :=
  { id := "p2", spaceId := "s", title := "t",
    embeddings := [[7]], content := ["hello world"], visibility := true }

/-- The document the raw-text ingest produces (content never set). -/
def c10RawDoc : StoredDoc :=
  { id := "r1", spaceId := "s", title := "t",
    embeddings := [[1], [2]], content := [], visibility := true }

/-- Witness for C10 at concrete ingests, including membership in the
per-space fetch after saving into the empty store. -/
theorem c10_ingested_documents_visible_witness :
    c10PdfDoc.visibility = true ∧ c10RawDoc.visibility = true ∧
    ∀ store store', saveEmbedding c10PdfDoc store = some store' →
      c10PdfDoc ∈ embeddingFindBySpace c10PdfDoc.spaceId store' :=
  c10_ingested_documents_visible "p2" "s" "t" ["hello world"]
    (fun _ => [7]) "r1" "s" "t" "hi" (fun _ => [1, 2])
    c10PdfDoc c10RawDoc (by decide) (by decide)
